import Mathlib

/-!
Verification of the socon registry / manager / hook-resolution core.

The definitions below are a shallow embedding of the Python sources:
  * `socon/core/registry/base.py`  (BaseRegistry, ProjectRegistry)
  * `socon/core/registry/core.py`  (CoreRegistry)
  * `socon/core/manager.py`        (BaseManager, Hook, ManagerRegistry)
  * `socon/core/management/base.py` (ProjectCommand)
  * `socon/test/utils.py`          (override_settings)
  * `socon/conf/__init__.py`       (CoreSettings, for the pieces the
    registry and manager consult: `configured`, `get_settings_module_name`)

Modelling conventions:
  * Python dicts are insertion-ordered association lists; a dict update on
    an existing key keeps its position, a new key is appended.
  * Raised exceptions become `Except Err` / an `Option Err` second
    component; an error value carries the data the exception message is
    built from (the cosmetic `.title()` casing and message formatting are
    dropped, the payload is kept).
  * Module import side effects are abstracted: `Configuration.create` is a
    parameter `create : String → Option RegistryConfig` (None = the
    factory raised), `import_managers` appends the config name to an
    `imported_managers` log, and importing a manager's lookup module for a
    config registers the hooks given by a parameter
    `hooksOf : RegistryConfig → List Hook` (a missing module is the empty
    list, matching the swallowed ModuleNotFoundError).
  * Filesystem paths and the module objects on a config are not consulted
    by any of the operations verified here and are omitted from the model.
-/

namespace Socon

/-- A registered configuration unit (`RegistryConfig` in
`socon/core/registry/config.py`): a fully-qualified `name`, the short
`label` (last dotted component by default), and the name of the owning
registry (`config.registry` is assigned by `BaseRegistry.populate`; only
its `name` is ever read, in `BaseManager.add_hook_impl`). -/
structure RegistryConfig where
  name : String
  label : String
  registryName : String
  deriving Repr, DecidableEq

/-- The errors raised by the modelled operations, with the payload their
messages are built from. -/
inductive Err where
  /-- `ImproperlyConfigured`: "... labels aren't unique, duplicates: ..." -/
  | duplicateLabel (kind : String) (label : String)
  /-- `ImproperlyConfigured`: "... names aren't unique, duplicates: ..." -/
  | duplicateNames (kind : String) (names : List String)
  /-- the exception raised by `config_class.create(entry)` -/
  | factoryError (entry : String)
  /-- `RegistryNotReady`: "... aren't loaded yet." -/
  | notReady (registryName : String)
  /-- `LookupError`: "No installed ... with label '...'." -/
  | lookupNoConfig (kind : String) (label : String)
  /-- `LookupError`: "Cannot autodetect any project ..." (lists labels) -/
  | noActiveProject (labels : List String)
  /-- `ManagerNotFound` -/
  | managerNotFound (name : String)
  /-- `ManagerNotHooked`: "'...' does not contain any hooks implementation" -/
  | managerNotHooked (name : String)
  /-- `HookNotFound`: "'name' hook was not found in 'manager' manager" -/
  | hookNotFound (hookName : String) (managerName : String)
  /-- `ImproperlyConfigured`: "'...' already exists. Duplicates: ..." -/
  | duplicateHook (hookName : String)
  /-- `ImproperlyConfigured`: "... hook must be linked to a manager" -/
  | hookNotLinked (clsName : String)
  /-- `RuntimeError`: "... class isn't in a project, plugin or in the common config ..." -/
  | hookOutsideConfig (clsName : String)
  /-- `CommandError`: "'...' project does not have access to this command ..." -/
  | notAuthorized (label : String) (allowed : List String)
  /-- `IndexError` from `self.stored_configs.pop()` on an empty stack -/
  | popEmptyStack
  deriving Repr, DecidableEq

/-- The mutable state of a `BaseRegistry` instance
(`socon/core/registry/base.py`, `__init__`).  `registry_configs` is the
insertion-ordered label → config dict; `imported_managers` is the log of
`config.import_managers()` calls (phase 2 of `populate`), standing in for
the module-import side effect. -/
structure RegistryState where
  name : String
  registry_configs : List RegistryConfig
  unregistered_configs : List String
  registry_ready : Bool
  managers_ready : Bool
  lock : Bool
  stored_configs : List (List RegistryConfig)
  imported_managers : List String
  deriving Repr, DecidableEq

/-- `BaseRegistry.single_registry_name`: drop a trailing "s".  (The
`.title()` casing applied when building messages is cosmetic and
dropped.)  Spelled on the character list so it evaluates by `decide`. -/
def RegistryState.single_registry_name (st : RegistryState) : String :=
  match st.name.data.getLast? with
  | some ch => if ch == 's' then ⟨st.name.data.dropLast⟩ else st.name
  | none => st.name

/-- An element of the `installed` iterable handed to `populate`: either an
already-built config instance or a string identifier for the factory. -/
inductive Entry where
  | config (c : RegistryConfig)
  | ident (s : String)
  deriving Repr, DecidableEq

/-- The head of `populate`'s loop body: use the entry directly if it is a
config instance, otherwise run the `config_class.create` factory
(abstracted by `create`; `none` models a raised exception). -/
def resolveEntry (create : String → Option RegistryConfig) : Entry → Except String RegistryConfig
  | .config c => .ok c
  | .ident s =>
    match create s with
    | some c => .ok c
    | none => .error s

/-- `registry_config.label in self.registry_configs` (dict key test). -/
def hasLabel (cfgs : List RegistryConfig) (label : String) : Bool :=
  cfgs.any (fun c => c.label == label)

/-- Phase 1 of `BaseRegistry.populate`: the `for entry in installed` loop.
Returns the mutated state, the `local_configs` accumulated for phase 2,
and the raised error if any.  On factory failure with `skip_error` the
entry is recorded in `unregistered_configs`; a label already present in
`registry_configs` raises the duplicate-label error.  (In the source
`registry_config.registry = self` is assigned right after insertion of
the same mutable object; here `registryName` is set before inserting.) -/
def populateLoop (create : String → Option RegistryConfig) (skip_error : Bool) :
    RegistryState → List RegistryConfig → List Entry →
      RegistryState × List RegistryConfig × Option Err
  | st, locals, [] => (st, locals, none)
  | st, locals, e :: rest =>
    match resolveEntry create e with
    | .error s =>
      if skip_error then
        populateLoop create skip_error
          { st with unregistered_configs := st.unregistered_configs ++ [s] } locals rest
      else (st, locals, some (.factoryError s))
    | .ok rc =>
      if hasLabel st.registry_configs rc.label then
        (st, locals, some (.duplicateLabel st.single_registry_name rc.label))
      else
        let rc1 := { rc with registryName := st.name }
        populateLoop create skip_error
          { st with registry_configs := st.registry_configs ++ [rc1] }
          (locals ++ [rc1]) rest

/-- The duplicate derived-name check of `populate`: names occurring more
than once among the registered configs.  (`Counter.most_common` ordering
of the message payload is abstracted to first-occurrence order.) -/
def duplicateNames (cfgs : List RegistryConfig) : List String :=
  ((cfgs.map (fun c => c.name)).filter
    (fun n => 1 < (cfgs.map (fun c => c.name)).count n)).dedup

/-- The tail of `populate` after the entry loop: the duplicate-name
check, then `registry_ready = True`, then `config.import_managers()` for
every newly added config (phase 2, logged in `imported_managers`), then
`managers_ready = True`. -/
def populateFinish (st2 : RegistryState) (locals : List RegistryConfig) :
    RegistryState × Option Err :=
  if (duplicateNames st2.registry_configs).isEmpty then
    ({ (locals.foldl
        (fun s c => { s with imported_managers := s.imported_managers ++ [c.name] })
        { st2 with registry_ready := true }) with managers_ready := true }, none)
  else
    (st2, some (.duplicateNames st2.single_registry_name
      (duplicateNames st2.registry_configs)))

/-- `BaseRegistry.populate(installed, skip_error, lock)`.  Returns the
state after the call together with the raised error, if any; on a raise
the state keeps every mutation made up to that point, as in Python. -/
def populate (create : String → Option RegistryConfig) (st : RegistryState)
    (installed : List Entry) (skip_error : Bool) (lock : Bool) :
    RegistryState × Option Err :=
  if st.lock then (st, none)
  else
    match populateLoop create skip_error
        (if lock then { st with lock := true } else st) [] installed with
    | (st2, _, some e) => (st2, some e)
    | (st2, locals, none) => populateFinish st2 locals

/-- `BaseRegistry.check_registry_ready`, as the error a not-ready query
raises.  (The diagnostic `settings.LOGGING` access on the error path only
changes which exception surfaces when settings are misconfigured; the
not-ready outcome itself is what is modelled.) -/
def check_registry_ready (st : RegistryState) : Option Err :=
  if st.registry_ready then none else some (.notReady st.name)

/-- `BaseRegistry.get_registry_configs`. -/
def get_registry_configs (st : RegistryState) : Except Err (List RegistryConfig) :=
  if st.registry_ready then .ok st.registry_configs else .error (.notReady st.name)

/-- `BaseRegistry.is_installed(name)`. -/
def is_installed (st : RegistryState) (name : String) : Except Err Bool :=
  if st.registry_ready then .ok (st.registry_configs.any (fun c => c.name == name))
  else .error (.notReady st.name)

/-- `BaseRegistry.get_registry_config(label)`: exact label lookup.  (The
"Did you mean ...?" suffix added to the message when a config's full name
equals the label is part of the message text only.) -/
def get_registry_config (st : RegistryState) (label : String) :
    Except Err RegistryConfig :=
  if st.registry_ready then
    match st.registry_configs.find? (fun c => c.label == label) with
    | some c => .ok c
    | none => .error (.lookupNoConfig st.single_registry_name label)
  else .error (.notReady st.name)

/-- The candidate test of `get_containing_registry_config`:
`object_name.startswith(config.name)` and the remaining subpath
`object_name[len(config.name):]` is empty or begins with a dot.
Spelled on the character lists so it evaluates by `decide`. -/
def boundarySubpath (cname oname : String) : Bool :=
  cname.data.isPrefixOf oname.data &&
    (match oname.data.drop cname.data.length with
     | [] => true
     | ch :: _ => ch == '.')

/-- `sorted(candidates, key=lambda ac: -len(ac.name))[0]`: the first
element of maximal name length (Python's sort is stable). -/
def maxByNameLen : List RegistryConfig → Option RegistryConfig
  | [] => none
  | c :: cs =>
    match maxByNameLen cs with
    | none => some c
    | some c' => if c.name.length < c'.name.length then some c' else some c

/-- `BaseRegistry.get_containing_registry_config(object_name)`. -/
def get_containing_registry_config (st : RegistryState) (oname : String) :
    Except Err (Option RegistryConfig) :=
  if st.registry_ready then
    .ok (maxByNameLen (st.registry_configs.filter (fun c => boundarySubpath c.name oname)))
  else .error (.notReady st.name)

/-- `BaseRegistry.set_installed_configs(installed, skip_error)`: push the
current config dict, clear it, unlock, repopulate. -/
def set_installed_configs (create : String → Option RegistryConfig)
    (st : RegistryState) (installed : List Entry) (skip_error : Bool) :
    RegistryState × Option Err :=
  let st1 := { st with
    stored_configs := st.registry_configs :: st.stored_configs,
    registry_configs := [],
    registry_ready := false,
    lock := false }
  populate create st1 installed skip_error true

/-- `BaseRegistry.unset_installed_configs`: pop the stored dict back and
mark the registry ready and locked again. -/
def unset_installed_configs (st : RegistryState) : Except Err RegistryState :=
  match st.stored_configs with
  | [] => .error .popEmptyStack
  | top :: rest =>
    .ok { st with registry_configs := top, stored_configs := rest,
                  registry_ready := true, lock := true }

/-- `ProjectRegistry.get_project_config_by_env`: `env` is the value of the
`SOCON_ACTIVE_PROJECT` environment variable (`if current_project:` is a
truthiness test, so an empty string falls through to the error branch). -/
def get_project_config_by_env (st : RegistryState) (env : Option String) :
    Except Err RegistryConfig :=
  match env with
  | some p =>
    if p.data.isEmpty then
      match get_registry_configs st with
      | .ok cfgs => .error (.noActiveProject (cfgs.map (fun c => c.label)))
      | .error e => .error e
    else get_registry_config st p
  | none =>
    match get_registry_configs st with
    | .ok cfgs => .error (.noActiveProject (cfgs.map (fun c => c.label)))
    | .error e => .error e

/-! ## CoreRegistry and the settings facts it consults -/

/-- The process-wide state the `CoreRegistry` and the managers read: the
three registries, whether the lazy settings object is configured
(`settings.configured`), and the value of the `SOCON_SETTINGS_MODULE`
environment variable (read by `CoreSettings.get_settings_module_name`). -/
structure CoreState where
  common : RegistryState
  plugins : RegistryState
  projects : RegistryState
  settings_configured : Bool
  settings_env : Option String
  deriving Repr, DecidableEq

/-- `settings_module.split(".")[0]`: the part before the first dot. -/
def firstDotComponent (s : String) : String :=
  ⟨s.data.takeWhile (fun ch => ch != '.')⟩

/-- `CoreSettings.get_settings_module_name`: when configured, the first
dotted component of the `SOCON_SETTINGS_MODULE` value; `None` when that
variable is unset or empty, or when settings are not configured. -/
def get_settings_module_name (st : CoreState) : Option String :=
  if st.settings_configured then
    match st.settings_env with
    | none => none
    | some sm => if sm.data.isEmpty then none else some (firstDotComponent sm)
  else none

/-- `CoreRegistry.get_user_common_config`: look the settings module name
up in the common registry (`if settings_module:` is a truthiness test, so
an empty name yields `None`). -/
def get_user_common_config (st : CoreState) : Except Err (Option RegistryConfig) :=
  match get_settings_module_name st with
  | some m =>
    if m.data.isEmpty then .ok none
    else
      match get_registry_config st.common m with
      | .ok c => .ok (some c)
      | .error e => .error e
  | none => .ok none

/-- `CoreRegistry.get_socon_common_config`: the config labelled "core" in
the common registry (registered from "socon.core" at startup). -/
def get_socon_common_config (st : CoreState) : Except Err RegistryConfig :=
  get_registry_config st.common "core"

/-- `CoreRegistry.get_containing_registry_config(object_name)`: collect
the per-registry winners over `[common, plugins, projects]`, skipping
registries that are not ready, then take the first of maximal name
length (`sorted(candidates, key=-len)[0]`, stable). -/
def core_get_containing_registry_config (st : CoreState) (oname : String) :
    Option RegistryConfig :=
  let step := fun (acc : List RegistryConfig) (r : RegistryState) =>
    if r.registry_ready then
      match get_containing_registry_config r oname with
      | .ok (some c) => acc ++ [c]
      | _ => acc
    else acc
  maxByNameLen ([st.common, st.plugins, st.projects].foldl step [])

/-! ## Manager / Hook registration (`socon/core/manager.py`) -/

/-- A hook implementation class.  `name` is its effective display name,
`getattr(hook, "name", hook.__name__)` — the key `add_hook_impl` stores
it under and the attribute `get_hook` compares.  `id` distinguishes
distinct classes that share a display name. -/
structure Hook where
  name : String
  id : Nat
  deriving Repr, DecidableEq

/-- Insertion-ordered dict lookup. -/
def lookupA {α : Type} (l : List (String × α)) (k : String) : Option α :=
  match l.find? (fun p => p.1 == k) with
  | some p => some p.2
  | none => none

/-- Insertion-ordered dict write: an existing key keeps its position, a
new key is appended. -/
def updateA {α : Type} : List (String × α) → String → α → List (String × α)
  | [], k, v => [(k, v)]
  | p :: rest, k, v =>
    if p.1 == k then (k, v) :: rest else p :: updateA rest k v

/-- The state of one `BaseManager` instance: the three-level hook table
`registry-name → config-label → hook-name → hook` (a
`defaultdict(lambda: defaultdict(dict))`; the empty inner dicts that
defaultdict access can create are observationally irrelevant to the
operations modelled here and are not materialised), and the
`_imported_configs` list of labels already imported. -/
structure ManagerState where
  name : String
  lookup_module : String
  hooks : List (String × List (String × List (String × Hook)))
  imported_configs : List String
  deriving Repr, DecidableEq

/-- `BaseManager.is_hooked` as the boolean it tests (`if not self.hooks`). -/
def ManagerState.is_hooked (m : ManagerState) : Bool :=
  !m.hooks.isEmpty

/-- `self.hooks[config.registry.name].get(config.label, {})`: the hook
bucket of one configuration. -/
def hookBucket (m : ManagerState) (c : RegistryConfig) : List (String × Hook) :=
  (lookupA ((lookupA m.hooks c.registryName).getD []) c.label).getD []

/-- The loop body shared by `get_hook`/`search_hook_impl`: the first hook
in the config's bucket whose `name` attribute equals `nm`. -/
def find_hook (m : ManagerState) (c : RegistryConfig) (nm : String) : Option Hook :=
  ((hookBucket m c).map (fun p => p.2)).find? (fun h => h.name == nm)

/-- `BaseManager.get_hook(config, name)` (with the `is_hooked` guard it
runs first). -/
def get_hook (m : ManagerState) (c : RegistryConfig) (nm : String) :
    Except Err (Option Hook) :=
  if m.is_hooked then .ok (find_hook m c nm)
  else .error (.managerNotHooked m.name)

/-- `BaseManager.add_hook_impl(config, hook)`: store the hook under its
display name in the config's bucket; a duplicate name in the same
(registry-name, label) bucket raises. -/
def add_hook_impl (m : ManagerState) (c : RegistryConfig) (h : Hook) :
    ManagerState × Option Err :=
  if (hookBucket m c).any (fun p => p.1 == h.name) then
    (m, some (.duplicateHook h.name))
  else
    ({ m with hooks := (updateA m.hooks c.registryName
        (updateA ((lookupA m.hooks c.registryName).getD []) c.label
          (hookBucket m c ++ [(h.name, h)]))) }, none)

/-- Importing a config's lookup module runs each hook class definition in
order, each registering itself through `add_hook_impl`; the first raise
aborts the import. -/
def registerAll (m : ManagerState) (c : RegistryConfig) :
    List Hook → ManagerState × Option Err
  | [] => (m, none)
  | h :: rest =>
    match add_hook_impl m c h with
    | (m1, none) => registerAll m1 c rest
    | (m1, some e) => (m1, some e)

/-- `BaseManager.find_hooks_impl(config)`: nothing for `None`; a label
already in `_imported_configs` is a silent no-op; otherwise record the
label and import the lookup module (`hooksOf c` lists the hook classes it
defines; a missing module — the swallowed ModuleNotFoundError — is the
empty list). -/
def find_hooks_impl (hooksOf : RegistryConfig → List Hook)
    (m : ManagerState) (config : Option RegistryConfig) :
    ManagerState × Option Err :=
  match config with
  | none => (m, none)
  | some c =>
    if m.imported_configs.contains c.label then (m, none)
    else
      registerAll { m with imported_configs := m.imported_configs ++ [c.label] }
        c (hooksOf c)

/-- The `configs` list `search_hook_impl` builds before appending the
socon core config: empty when settings are not configured, otherwise the
user common config (when there is one) followed by the plugin configs in
registration order. -/
def fallback_configs (core : CoreState) : Except Err (List RegistryConfig) :=
  if core.settings_configured then
    match get_user_common_config core with
    | .error e => .error e
    | .ok user =>
      match get_registry_configs core.plugins with
      | .error e => .error e
      | .ok plugs => .ok (user.toList ++ plugs)
  else .ok []

/-- `BaseManager.search_hook_impl(name, config)`: the is_hooked guard;
the explicit config's bucket first, returning on a hit; then — only when
settings are configured — the user common config and every plugin config
in registration order; then the socon core config; else `HookNotFound`. -/
def search_hook_impl (core : CoreState) (m : ManagerState) (nm : String)
    (config : Option RegistryConfig) : Except Err Hook :=
  if !m.is_hooked then .error (.managerNotHooked m.name)
  else
    match (match config with | some c => find_hook m c nm | none => none) with
    | some h => .ok h
    | none =>
      match fallback_configs core with
      | .error e => .error e
      | .ok cfgs =>
        match get_socon_common_config core with
        | .error e => .error e
        | .ok coreCfg =>
          match (cfgs ++ [coreCfg]).findSome? (fun c => find_hook m c nm) with
          | some h => .ok h
          | none => .error (.hookNotFound nm m.name)

/-- A `Hook` subclass as `Hook.__init_subclass__` sees it: its class
name, defining module, `manager` class attribute, the effective abstract
flag (`getattr(cls, "abstract", abstract)` — class attribute if present,
else the keyword argument), and the hook value it registers. -/
structure HookCls where
  clsName : String
  module : String
  manager : Option String
  abstract : Bool
  hook : Hook
  deriving Repr, DecidableEq

/-- `Hook.__init_subclass__` acting on the global manager registry
(`managers : name → manager`): abstract classes are exempt; a missing
`manager` attribute raises `ImproperlyConfigured`; an unknown manager
name raises `ManagerNotFound`; a module outside every registered config
raises `RuntimeError`; otherwise the hook is added to its manager. -/
def hook_init_subclass (core : CoreState) (mgrs : List (String × ManagerState))
    (cls : HookCls) : List (String × ManagerState) × Option Err :=
  if cls.abstract then (mgrs, none)
  else
    match cls.manager with
    | none => (mgrs, some (.hookNotLinked cls.clsName))
    | some mgrName =>
      match lookupA mgrs mgrName with
      | none => (mgrs, some (.managerNotFound mgrName))
      | some mgr =>
        match core_get_containing_registry_config core cls.module with
        | none => (mgrs, some (.hookOutsideConfig cls.clsName))
        | some config =>
          match add_hook_impl mgr config cls.hook with
          | (mgr1, e) => (updateA mgrs mgrName mgr1, e)

/-! ## ProjectCommand (`socon/core/management/base.py`) -/

/-- `ProjectCommand.__init__`: compute `restricted_projects` from the
class attribute `projects` (default `["__all__"]`) and the installed
project labels. -/
def project_command_init (prj : RegistryState) (clsProjects : List String) :
    Except Err (List String) :=
  match get_registry_configs prj with
  | .error e => .error e
  | .ok cfgs =>
    let available := cfgs.map (fun c => c.label)
    if clsProjects.contains "__all__" then .ok available
    else .ok (available.filter (fun l => clsProjects.contains l))

/-- `ProjectCommand.execute`: resolve the active project from the
environment, raise `CommandError` when its label is not authorized,
otherwise run `handle` (modelled as returning the resolved project
config handed to it). -/
def project_command_execute (prj : RegistryState) (env : Option String)
    (restricted : List String) : Except Err RegistryConfig :=
  match get_project_config_by_env prj env with
  | .error e => .error e
  | .ok pc =>
    if restricted.contains pc.label then .ok pc
    else .error (.notAuthorized pc.label restricted)

/-! ## override_settings (`socon/test/utils.py`) -/

/-- The state `override_settings` touches: the projects and plugins
registries and the settings wrapper (`settings._wrapped`, abstracted to a
counter — entering installs a fresh `UserSettingsHolder`, bumping it). -/
structure OverrideState where
  projects : RegistryState
  plugins : RegistryState
  wrapped : Nat
  deriving Repr, DecidableEq

/-- The keyword arguments of `override_settings` that its enter/exit
logic inspects. -/
structure OverrideOptions where
  installed_projects : Option (List Entry)
  installed_plugins : Option (List Entry)
  skip_error_option : Option Bool
  deriving Repr, DecidableEq

/-- The `INSTALLED_PROJECTS` block of `override_settings.__enter__`:
apply `set_installed_configs` with the skip-error flag from the options
or the current settings; on a raise, `unset_installed_configs` then
re-raise. -/
def override_enter_projects (create : String → Option RegistryConfig)
    (skipDefault : Bool) (opts : OverrideOptions) (st : OverrideState) :
    OverrideState × Option Err :=
  match opts.installed_projects with
  | none => (st, none)
  | some entries =>
    let skip := opts.skip_error_option.getD skipDefault
    match set_installed_configs create st.projects entries skip with
    | (prj1, none) => ({ st with projects := prj1 }, none)
    | (prj1, some e) =>
      match unset_installed_configs prj1 with
      | .ok prj2 => ({ st with projects := prj2 }, some e)
      | .error e1 => ({ st with projects := prj1 }, some e1)

/-- The `INSTALLED_PLUGINS` block of `override_settings.__enter__`
(always `skip_error=False`); same rollback-then-re-raise shape. -/
def override_enter_plugins (create : String → Option RegistryConfig)
    (opts : OverrideOptions) (st : OverrideState) :
    OverrideState × Option Err :=
  match opts.installed_plugins with
  | none => (st, none)
  | some entries =>
    match set_installed_configs create st.plugins entries false with
    | (plg1, none) => ({ st with plugins := plg1 }, none)
    | (plg1, some e) =>
      match unset_installed_configs plg1 with
      | .ok plg2 => ({ st with plugins := plg2 }, some e)
      | .error e1 => ({ st with plugins := plg1 }, some e1)

/-- `override_settings.__enter__`: the projects block, then the plugins
block, then install the `UserSettingsHolder` override wrapper (recording
the previous wrapper for `__exit__`).  A raise in an earlier block
propagates without running the later steps. -/
def override_enter (create : String → Option RegistryConfig)
    (skipDefault : Bool) (opts : OverrideOptions) (st : OverrideState) :
    OverrideState × Option Err :=
  match override_enter_projects create skipDefault opts st with
  | (st1, some e) => (st1, some e)
  | (st1, none) =>
    match override_enter_plugins create opts st1 with
    | (st2, some e) => (st2, some e)
    | (st2, none) => ({ st2 with wrapped := st2.wrapped + 1 }, none)

/-- The projects step of `override_settings.__exit__`:
`projects.unset_installed_configs()` when `INSTALLED_PROJECTS` was among
the options. -/
def override_exit_projects (opts : OverrideOptions) (st : OverrideState) :
    Except Err OverrideState :=
  match opts.installed_projects with
  | some _ =>
    match unset_installed_configs st.projects with
    | .ok prj1 => .ok { st with projects := prj1 }
    | .error e => .error e
  | none => .ok st

/-- The plugins step of `override_settings.__exit__`. -/
def override_exit_plugins (opts : OverrideOptions) (st : OverrideState) :
    Except Err OverrideState :=
  match opts.installed_plugins with
  | some _ =>
    match unset_installed_configs st.plugins with
    | .ok plg1 => .ok { st with plugins := plg1 }
    | .error e => .error e
  | none => .ok st

/-- `override_settings.__exit__`: unset the projects and plugins
overrides when the matching keys were present, then restore the saved
settings wrapper. -/
def override_exit (opts : OverrideOptions) (savedWrapped : Nat)
    (st : OverrideState) : Except Err OverrideState :=
  match override_exit_projects opts st with
  | .error e => .error e
  | .ok st1 =>
    match override_exit_plugins opts st1 with
    | .error e => .error e
    | .ok st2 => .ok { st2 with wrapped := savedWrapped }

/-! ## Concrete fixtures used by the witnesses -/

/-- The framework core config, registered from "socon.core" at startup. -/
def cfgCore : RegistryConfig := { name := "socon.core", label := "core", registryName := "common" }

/-- A user common config named after the settings module. -/
def cfgUser : RegistryConfig := { name := "myapp", label := "myapp", registryName := "common" }

/-- An installed plugin. -/
def cfgPlug : RegistryConfig := { name := "plugA", label := "plugA", registryName := "plugins" }

/-- An installed project. -/
def cfgPkg : RegistryConfig := { name := "pkg", label := "pkg", registryName := "projects" }

/-- A project nested inside `cfgPkg`. -/
def cfgPkgSub : RegistryConfig := { name := "pkg.sub", label := "sub", registryName := "projects" }

/-- A populated, locked registry in the ready state. -/
def mkRegistry (nm : String) (cfgs : List RegistryConfig) : RegistryState :=
  { name := nm, registry_configs := cfgs, unregistered_configs := [],
    registry_ready := true, managers_ready := true, lock := true,
    stored_configs := [], imported_managers := [] }

def exProjects : RegistryState := mkRegistry "projects" [cfgPkg, cfgPkgSub]

def exCommon : RegistryState := mkRegistry "common" [cfgCore, cfgUser]

def exPlugins : RegistryState := mkRegistry "plugins" [cfgPlug]

/-- A fully configured process state: settings configured from
"myapp.settings", all three registries populated. -/
def exCore : CoreState :=
  { common := exCommon, plugins := exPlugins, projects := exProjects,
    settings_configured := true, settings_env := some "myapp.settings" }

def hkProjBuild : Hook := { name := "build", id := 1 }

def hkCoreBuild : Hook := { name := "build", id := 2 }

/-- A "commands" manager holding a hook named "build" both in the `pkg`
project bucket and in the framework core bucket. -/
def exMgr : ManagerState :=
  { name := "commands", lookup_module := "management.commands",
    hooks := [("projects", [("pkg", [("build", hkProjBuild)])]),
              ("common", [("core", [("build", hkCoreBuild)])])],
    imported_configs := ["pkg", "core"] }

/-- A factory that always raises, for failing-populate scenarios. -/
def createFail : String → Option RegistryConfig := fun _ => none

/-- Two distinct project configs sharing the label "dup". -/
def cfgDupA : RegistryConfig := { name := "alpha.dup", label := "dup", registryName := "" }

def cfgDupB : RegistryConfig := { name := "beta.dup", label := "dup", registryName := "" }

/-- The state `set_installed_configs` hands to `populate` when called on
`exProjects`: old config dict pushed, dict cleared, ready flag dropped,
unlocked — note `managers_ready` is still `true`. -/
def stPre : RegistryState :=
  { exProjects with
    stored_configs := exProjects.registry_configs :: exProjects.stored_configs,
    registry_configs := [], registry_ready := false, lock := false }

/-- A freshly constructed, never-populated projects registry. -/
def freshProjects : RegistryState :=
  { name := "projects", registry_configs := [], unregistered_configs := [],
    registry_ready := false, managers_ready := false, lock := false,
    stored_configs := [], imported_managers := [] }

/-- A project config labelled "dup". -/
def cfgDupProj : RegistryConfig :=
  { name := "projdup", label := "dup", registryName := "projects" }

/-- A plugin config in a different registry, sharing the label "dup". -/
def cfgDupPlug : RegistryConfig :=
  { name := "plugdup", label := "dup", registryName := "plugins" }

/-- Lookup-module contents: the plugin's module and the project's module
define different hooks. -/
def hooksOfEx : RegistryConfig → List Hook := fun c =>
  if c.registryName == "plugins" then [{ name := "fromPlug", id := 7 }]
  else [{ name := "fromProj", id := 6 }]

/-- A manager that has imported nothing yet. -/
def emptyMgr : ManagerState :=
  { name := "commands", lookup_module := "management.commands",
    hooks := [], imported_configs := [] }

/-- The override-settings state before entering a context. -/
def ovSt : OverrideState :=
  { projects := exProjects, plugins := exPlugins, wrapped := 5 }

/-- `override_settings(INSTALLED_PROJECTS=["bad"], SKIP_ERROR_ON_PROJECTS_IMPORT=False)`
where "bad" fails to import. -/
def optsProjBad : OverrideOptions :=
  { installed_projects := some [.ident "bad"], installed_plugins := none,
    skip_error_option := some false }

/-- `override_settings(INSTALLED_PLUGINS=["badplug"])` where "badplug"
fails to import. -/
def optsPlugBad : OverrideOptions :=
  { installed_projects := none, installed_plugins := some [.ident "badplug"],
    skip_error_option := none }

/-- A hook class explicitly marked abstract. -/
def clsAbs : HookCls :=
  { clsName := "AbstractHook", module := "pkg.management.commands",
    manager := some "commands", abstract := true, hook := { name := "abs", id := 10 } }

/-- A non-abstract hook class with no `manager` attribute. -/
def clsNoMgr : HookCls :=
  { clsName := "Orphan", module := "pkg.management.commands",
    manager := none, abstract := false, hook := { name := "orph", id := 11 } }

/-- A non-abstract hook class defined in a module outside every
registered Configuration. -/
def clsOutside : HookCls :=
  { clsName := "Stray", module := "other.module",
    manager := some "commands", abstract := false, hook := { name := "stray", id := 12 } }

/-- The global manager registry holding the "commands" manager. -/
def exMgrs : List (String × ManagerState) := [("commands", exMgr)]

/-! ## Helper lemmas -/

/-- Phase 1 of `populate` only touches `registry_configs` and
`unregistered_configs`: every other field of the state survives the loop. -/
theorem populateLoop_preserves (create : String → Option RegistryConfig)
    (skip : Bool) :
    ∀ (es : List Entry) (st : RegistryState) (ls : List RegistryConfig),
      (populateLoop create skip st ls es).1.name = st.name ∧
      (populateLoop create skip st ls es).1.registry_ready = st.registry_ready ∧
      (populateLoop create skip st ls es).1.managers_ready = st.managers_ready ∧
      (populateLoop create skip st ls es).1.stored_configs = st.stored_configs ∧
      (populateLoop create skip st ls es).1.imported_managers = st.imported_managers ∧
      (populateLoop create skip st ls es).1.lock = st.lock := by
  intro es
  induction es with
  | nil => intro st ls; exact ⟨rfl, rfl, rfl, rfl, rfl, rfl⟩
  | cons e rest ih =>
    intro st ls
    rw [populateLoop]
    split
    · split
      · exact ih _ _
      · exact ⟨rfl, rfl, rfl, rfl, rfl, rfl⟩
    · split
      · exact ⟨rfl, rfl, rfl, rfl, rfl, rfl⟩
      · exact ih _ _

/-- Phase 2 of `populate` (the manager-import fold) only touches
`imported_managers`. -/
theorem importFold_preserves :
    ∀ (ls : List RegistryConfig) (st : RegistryState),
      ((ls.foldl (fun s c =>
          { s with imported_managers := s.imported_managers ++ [c.name] }) st).name = st.name ∧
       (ls.foldl (fun s c =>
          { s with imported_managers := s.imported_managers ++ [c.name] }) st).registry_configs = st.registry_configs ∧
       (ls.foldl (fun s c =>
          { s with imported_managers := s.imported_managers ++ [c.name] }) st).registry_ready = st.registry_ready ∧
       (ls.foldl (fun s c =>
          { s with imported_managers := s.imported_managers ++ [c.name] }) st).stored_configs = st.stored_configs ∧
       (ls.foldl (fun s c =>
          { s with imported_managers := s.imported_managers ++ [c.name] }) st).lock = st.lock) := by
  intro ls
  induction ls with
  | nil => intro st; exact ⟨rfl, rfl, rfl, rfl, rfl⟩
  | cons c rest ih => intro st; exact ih _

/-- `populateFinish` never touches the `stored_configs` stack or the
registry's name. -/
theorem populateFinish_preserves (st2 : RegistryState) (ls : List RegistryConfig) :
    (populateFinish st2 ls).1.stored_configs = st2.stored_configs ∧
    (populateFinish st2 ls).1.name = st2.name := by
  unfold populateFinish
  by_cases hd : (duplicateNames st2.registry_configs).isEmpty
  · rw [if_pos hd]
    have h2 := importFold_preserves ls { st2 with registry_ready := true }
    exact ⟨h2.2.2.2.1, h2.1⟩
  · rw [if_neg hd]; exact ⟨rfl, rfl⟩

/-- When `populateFinish` raises (the duplicate-name error), it leaves
the state exactly as the loop produced it. -/
theorem populateFinish_error (st2 : RegistryState) (ls : List RegistryConfig)
    (h : (populateFinish st2 ls).2.isSome = true) :
    (populateFinish st2 ls).1 = st2 := by
  unfold populateFinish at h ⊢
  by_cases hd : (duplicateNames st2.registry_configs).isEmpty
  · rw [if_pos hd] at h; simp at h
  · rw [if_neg hd]

/-- `populate` never touches the `stored_configs` stack or the registry's
name. -/
theorem populate_preserves_stored (create : String → Option RegistryConfig)
    (st : RegistryState) (installed : List Entry) (skip lock : Bool) :
    (populate create st installed skip lock).1.stored_configs = st.stored_configs ∧
    (populate create st installed skip lock).1.name = st.name := by
  have hst1s : (if lock then { st with lock := true } else st).stored_configs
      = st.stored_configs := by cases lock <;> rfl
  have hst1n : (if lock then { st with lock := true } else st).name = st.name := by
    cases lock <;> rfl
  rcases hloop : populateLoop create skip
      (if lock then { st with lock := true } else st) [] installed with ⟨st2, ls, err⟩
  have h := populateLoop_preserves create skip installed
    (if lock then { st with lock := true } else st) []
  rw [hloop] at h
  by_cases hl : st.lock = true
  · rw [populate, if_pos hl]; exact ⟨rfl, rfl⟩
  · rw [populate, if_neg hl, hloop]
    cases err with
    | some e => exact ⟨h.2.2.2.1.trans hst1s, h.1.trans hst1n⟩
    | none =>
      have hf := populateFinish_preserves st2 ls
      exact ⟨hf.1.trans (h.2.2.2.1.trans hst1s), hf.2.trans (h.1.trans hst1n)⟩

/-- If `populate` raises, the raise happened before the ready flags are
set and before any manager import: the ready flags and the import log
are exactly what they were before the call. -/
theorem populate_error_preserves (create : String → Option RegistryConfig)
    (st : RegistryState) (installed : List Entry) (skip lock : Bool)
    (herr : (populate create st installed skip lock).2.isSome = true) :
    (populate create st installed skip lock).1.registry_ready = st.registry_ready ∧
    (populate create st installed skip lock).1.managers_ready = st.managers_ready ∧
    (populate create st installed skip lock).1.imported_managers = st.imported_managers ∧
    (populate create st installed skip lock).1.name = st.name := by
  have hst1r : (if lock then { st with lock := true } else st).registry_ready
      = st.registry_ready := by cases lock <;> rfl
  have hst1m : (if lock then { st with lock := true } else st).managers_ready
      = st.managers_ready := by cases lock <;> rfl
  have hst1i : (if lock then { st with lock := true } else st).imported_managers
      = st.imported_managers := by cases lock <;> rfl
  have hst1n : (if lock then { st with lock := true } else st).name = st.name := by
    cases lock <;> rfl
  rcases hloop : populateLoop create skip
      (if lock then { st with lock := true } else st) [] installed with ⟨st2, ls, err⟩
  have h := populateLoop_preserves create skip installed
    (if lock then { st with lock := true } else st) []
  rw [hloop] at h
  by_cases hl : st.lock = true
  · rw [populate, if_pos hl] at herr; simp at herr
  · rw [populate, if_neg hl, hloop] at herr ⊢
    cases err with
    | some e =>
      exact ⟨h.2.1.trans hst1r, h.2.2.1.trans hst1m, h.2.2.2.2.1.trans hst1i,
        h.1.trans hst1n⟩
    | none =>
      have hf := populateFinish_error st2 ls herr
      rw [hf]
      exact ⟨h.2.1.trans hst1r, h.2.2.1.trans hst1m, h.2.2.2.2.1.trans hst1i,
        h.1.trans hst1n⟩

/-- `maxByNameLen` only returns `none` on the empty list. -/
theorem maxByNameLen_none :
    ∀ (l : List RegistryConfig), maxByNameLen l = none → l = [] := by
  intro l h
  cases l with
  | nil => rfl
  | cons c cs =>
    rw [maxByNameLen] at h
    split at h
    · simp at h
    · split at h <;> simp at h

/-- `maxByNameLen` returns an element of its input list. -/
theorem maxByNameLen_mem :
    ∀ (l : List RegistryConfig) (c : RegistryConfig),
      maxByNameLen l = some c → c ∈ l := by
  intro l
  induction l with
  | nil => intro c h; simp [maxByNameLen] at h
  | cons x xs ih =>
    intro c h
    rw [maxByNameLen] at h
    split at h
    · simp only [Option.some.injEq] at h
      exact h ▸ List.mem_cons_self x xs
    · next c' heq =>
      split at h
      · simp only [Option.some.injEq] at h
        exact List.mem_cons_of_mem x (ih c (h ▸ heq))
      · simp only [Option.some.injEq] at h
        exact h ▸ List.mem_cons_self x xs

/-- `maxByNameLen` returns an element of maximal name length. -/
theorem maxByNameLen_max :
    ∀ (l : List RegistryConfig) (c : RegistryConfig),
      maxByNameLen l = some c →
      ∀ x ∈ l, x.name.length ≤ c.name.length := by
  intro l
  induction l with
  | nil => intro c h; simp [maxByNameLen] at h
  | cons y ys ih =>
    intro c h x hx
    rw [maxByNameLen] at h
    rcases List.mem_cons.1 hx with hxy | hxs
    · subst hxy
      split at h
      · simp only [Option.some.injEq] at h; exact h ▸ le_refl _
      · next c' heq =>
        split at h
        · next hlt =>
          simp only [Option.some.injEq] at h
          exact h ▸ le_of_lt hlt
        · simp only [Option.some.injEq] at h; exact h ▸ le_refl _
    · split at h
      · next heq =>
        rw [maxByNameLen_none ys heq] at hxs
        simp at hxs
      · next c' heq =>
        have hc' := ih c' heq x hxs
        split at h
        · simp only [Option.some.injEq] at h; exact h ▸ hc'
        · next hnlt =>
          simp only [Option.some.injEq] at h
          exact h ▸ le_trans hc' (le_of_not_lt hnlt)

/-- `add_hook_impl` never touches `_imported_configs`. -/
theorem add_hook_impl_imported (m : ManagerState) (c : RegistryConfig) (h : Hook) :
    (add_hook_impl m c h).1.imported_configs = m.imported_configs := by
  unfold add_hook_impl
  split <;> rfl

/-- Registering a batch of hooks never touches `_imported_configs`. -/
theorem registerAll_preserves_imported (c : RegistryConfig) :
    ∀ (hs : List Hook) (m : ManagerState),
      (registerAll m c hs).1.imported_configs = m.imported_configs := by
  intro hs
  induction hs with
  | nil => intro m; rfl
  | cons hk rest ih =>
    intro m
    rw [registerAll]
    rcases hadd : add_hook_impl m c hk with ⟨m1, err⟩
    have hm1 : m1.imported_configs = m.imported_configs := by
      have h2 := add_hook_impl_imported m c hk
      rw [hadd] at h2
      exact h2
    cases err with
    | none => exact (ih m1).trans hm1
    | some e => exact hm1

/-- After `find_hooks_impl` has run for a config, the config's label is
recorded in `_imported_configs`. -/
theorem find_hooks_impl_records_label (hooksOf : RegistryConfig → List Hook)
    (m : ManagerState) (c : RegistryConfig) :
    ((find_hooks_impl hooksOf m (some c)).1.imported_configs.contains c.label) = true := by
  by_cases hcon : m.imported_configs.contains c.label = true
  · simp only [find_hooks_impl]
    rw [if_pos hcon]
    exact hcon
  · simp only [find_hooks_impl]
    rw [if_neg hcon, registerAll_preserves_imported]
    simp

/-- `fallback_configs` under explicit values of the two lookups it runs. -/
theorem fallback_configs_eq (core : CoreState) (u : Option RegistryConfig)
    (ps : List RegistryConfig)
    (hu : get_user_common_config core = .ok u)
    (hp : get_registry_configs core.plugins = .ok ps) :
    fallback_configs core =
      .ok (if core.settings_configured then u.toList ++ ps else []) := by
  unfold fallback_configs
  by_cases hc : core.settings_configured = true
  · rw [if_pos hc, if_pos hc, hu, hp]
  · rw [if_neg hc, if_neg hc]

/-- `set_installed_configs` pushes the current config dict onto the
stack, whatever the subsequent `populate` does. -/
theorem set_installed_stored (create : String → Option RegistryConfig)
    (st : RegistryState) (i : List Entry) (sk : Bool) :
    (set_installed_configs create st i sk).1.stored_configs =
      st.registry_configs :: st.stored_configs := by
  unfold set_installed_configs
  exact (populate_preserves_stored create _ i sk true).1

/-- `unset_installed_configs` on a state whose stack is known: pop it
back. -/
theorem unset_of_stored (X : RegistryState) (a : List RegistryConfig)
    (b : List (List RegistryConfig)) (hst : X.stored_configs = a :: b) :
    unset_installed_configs X =
      .ok { X with registry_configs := a, stored_configs := b,
                   registry_ready := true, lock := true } := by
  unfold unset_installed_configs
  rw [hst]

/-! ## Claim theorems -/

/-- C1. For every hook name and every manager with at least one
registered hook, `search_hook_impl(name, config)` resolves in this order:
the supplied config's bucket first, returning on a hit; then, only when
settings are configured, the user common Configuration followed by every
plugin Configuration in plugin-registration order; then the framework's
core Configuration; and when no bucket holds the name it raises the
hook-not-found error naming the manager.  In particular a config-specific
hook wins over a common/plugin/core hook of the same name. -/
theorem search_hook_impl_resolution_order
    (core : CoreState) (m : ManagerState) (nm : String)
    (config : Option RegistryConfig) (u : Option RegistryConfig)
    (ps : List RegistryConfig) (sc : RegistryConfig)
    (hhook : m.is_hooked = true)
    (hu : get_user_common_config core = .ok u)
    (hp : get_registry_configs core.plugins = .ok ps)
    (hs : get_socon_common_config core = .ok sc) :
    search_hook_impl core m nm config =
      match config.bind (fun c => find_hook m c nm) with
      | some h => .ok h
      | none =>
        match ((if core.settings_configured then u.toList ++ ps else []) ++ [sc]).findSome?
            (fun c => find_hook m c nm) with
        | some h => .ok h
        | none => .error (.hookNotFound nm m.name) := by
  unfold search_hook_impl
  rw [hhook, fallback_configs_eq core u ps hu hp, hs]
  cases config with
  | none => simp
  | some c =>
    cases hf : find_hook m c nm with
    | some h => simp [hf]
    | none => simp [hf]

/-- C1 witness: in the concrete fixture both the `pkg` project bucket and
the framework core bucket hold a hook named "build"; searching with the
`pkg` config supplied returns the project-specific one. -/
theorem search_hook_impl_resolution_order_witness :
    search_hook_impl exCore exMgr "build" (some cfgPkg) = .ok hkProjBuild :=
  (search_hook_impl_resolution_order exCore exMgr "build" (some cfgPkg)
      (some cfgUser) [cfgPlug] cfgCore (by decide) (by rfl) (by rfl) (by rfl)).trans
    (by rfl)

/-- C2. For every populated registry and every dotted object name,
`get_containing_registry_config(object_name)` returns a Configuration
only if that Configuration is registered and its name is a prefix of the
object name ending at a `.` boundary or equal to the whole name, and its
name is at least as long as that of every other registered Configuration
satisfying the boundary-prefix test (longest match wins). -/
theorem get_containing_registry_config_longest
    (st : RegistryState) (oname : String) (c c' : RegistryConfig)
    (h : get_containing_registry_config st oname = .ok (some c))
    (h2 : c' ∈ st.registry_configs)
    (h3 : boundarySubpath c'.name oname = true) :
    c ∈ st.registry_configs ∧ boundarySubpath c.name oname = true ∧
      c'.name.length ≤ c.name.length := by
  unfold get_containing_registry_config at h
  by_cases hr : st.registry_ready = true
  · rw [if_pos hr] at h
    simp only [Except.ok.injEq] at h
    have hmem := maxByNameLen_mem _ c h
    have hmax := maxByNameLen_max _ c h
    have hcf := List.mem_filter.1 hmem
    refine ⟨hcf.1, by simpa using hcf.2, ?_⟩
    exact hmax c' (List.mem_filter.2 ⟨h2, by simpa using h3⟩)
  · rw [if_neg hr] at h
    exact absurd h (by simp)

/-- C2 witness: with both "pkg" and "pkg.sub" registered, the query for
"pkg.sub.mod" returns the Configuration named "pkg.sub", which beats the
shorter boundary-prefix candidate "pkg". -/
theorem get_containing_registry_config_longest_witness :
    cfgPkgSub ∈ exProjects.registry_configs ∧
    boundarySubpath cfgPkgSub.name "pkg.sub.mod" = true ∧
    cfgPkg.name.length ≤ cfgPkgSub.name.length :=
  get_containing_registry_config_longest exProjects "pkg.sub.mod" cfgPkgSub cfgPkg
    (by rfl) (by simp [exProjects, mkRegistry]) (by decide)

/-- C3. For every unlocked registry, calling `populate` with two
identifiers whose Configurations share a label raises the duplicate-label
error naming the registry kind and the duplicate label, and this happens
before any Configuration's managers module is imported (the import log
and the managers-ready flag are untouched), so no hooks are registered by
that populate call. -/
theorem populateLoop_two_dup_labels (create : String → Option RegistryConfig)
    (skip : Bool) (st1 : RegistryState) (en1 en2 : Entry) (c1 c2 : RegistryConfig)
    (h1 : resolveEntry create en1 = .ok c1)
    (h2 : resolveEntry create en2 = .ok c2)
    (hlab : c1.label = c2.label) :
    (populateLoop create skip st1 [] [en1, en2]).2.2 =
      some (.duplicateLabel st1.single_registry_name c1.label) ∧
    (populateLoop create skip st1 [] [en1, en2]).1.imported_managers
      = st1.imported_managers ∧
    (populateLoop create skip st1 [] [en1, en2]).1.managers_ready
      = st1.managers_ready ∧
    (populateLoop create skip st1 [] [en1, en2]).1.name = st1.name := by
  by_cases hd1 : hasLabel st1.registry_configs c1.label = true
  · simp only [populateLoop, h1]
    rw [if_pos hd1]
    exact ⟨rfl, rfl, rfl, rfl⟩
  · have hdup2 : hasLabel (st1.registry_configs
        ++ [{ c1 with registryName := st1.name }]) c2.label = true := by
      simp [hasLabel, ← hlab]
    simp only [populateLoop, h1, h2]
    rw [if_neg hd1, if_pos hdup2]
    refine ⟨?_, rfl, rfl, rfl⟩
    rw [hlab]
    exact rfl

theorem populate_duplicate_label_before_imports
    (create : String → Option RegistryConfig) (st : RegistryState)
    (en1 en2 : Entry) (c1 c2 : RegistryConfig) (skip lock : Bool)
    (hlock : st.lock = false)
    (h1 : resolveEntry create en1 = .ok c1)
    (h2 : resolveEntry create en2 = .ok c2)
    (hlab : c1.label = c2.label) :
    (populate create st [en1, en2] skip lock).2 =
      some (.duplicateLabel st.single_registry_name c1.label) ∧
    (populate create st [en1, en2] skip lock).1.imported_managers = st.imported_managers ∧
    (populate create st [en1, en2] skip lock).1.managers_ready = st.managers_ready := by
  have hname : (if lock then { st with lock := true } else st).name = st.name := by
    cases lock <;> rfl
  have hsingle : (if lock then { st with lock := true } else st).single_registry_name
      = st.single_registry_name := by
    unfold RegistryState.single_registry_name
    rw [hname]
  have himp : (if lock then { st with lock := true } else st).imported_managers
      = st.imported_managers := by cases lock <;> rfl
  have hmgr : (if lock then { st with lock := true } else st).managers_ready
      = st.managers_ready := by cases lock <;> rfl
  have haux := populateLoop_two_dup_labels create skip
    (if lock then { st with lock := true } else st) en1 en2 c1 c2 h1 h2 hlab
  rcases hloop : populateLoop create skip
      (if lock then { st with lock := true } else st) [] [en1, en2] with ⟨st2, ls, err⟩
  rw [hloop] at haux
  obtain ⟨he, hi, hm, _⟩ := haux
  rw [populate, if_neg (by simp [hlock]), hloop]
  have he2 : err = some (.duplicateLabel
      (if lock then { st with lock := true } else st).single_registry_name c1.label) := he
  subst he2
  exact ⟨by rw [hsingle], hi.trans himp, hm.trans hmgr⟩

/-- C3 witness: populating a fresh unlocked projects registry with two
configs sharing the label "dup" raises the duplicate-label error, with
the import log and managers-ready flag untouched. -/
theorem populate_duplicate_label_before_imports_witness :
    (populate createFail freshProjects [.config cfgDupA, .config cfgDupB] false true).2 =
      some (.duplicateLabel freshProjects.single_registry_name cfgDupA.label) ∧
    (populate createFail freshProjects
        [.config cfgDupA, .config cfgDupB] false true).1.imported_managers =
      freshProjects.imported_managers ∧
    (populate createFail freshProjects
        [.config cfgDupA, .config cfgDupB] false true).1.managers_ready =
      freshProjects.managers_ready :=
  populate_duplicate_label_before_imports createFail freshProjects
    (.config cfgDupA) (.config cfgDupB) cfgDupA cfgDupB false true
    (by rfl) (by rfl) (by rfl) (by rfl)

/-- C4. For every Manager state and every Configuration, calling
`find_hooks_impl` a second time for the same Configuration is a silent
no-op (the state is returned unchanged and nothing is raised), because
the imported labels are tracked in `_imported_configs`; hence each hook
of that Configuration is registered exactly once however many times the
call is repeated. -/
theorem find_hooks_impl_second_call_noop (hooksOf : RegistryConfig → List Hook)
    (m : ManagerState) (c : RegistryConfig) :
    find_hooks_impl hooksOf (find_hooks_impl hooksOf m (some c)).1 (some c) =
      ((find_hooks_impl hooksOf m (some c)).1, none) := by
  have key := find_hooks_impl_records_label hooksOf m c
  generalize hm1 : (find_hooks_impl hooksOf m (some c)).1 = m1 at key ⊢
  simp only [find_hooks_impl]
  rw [if_pos key]

/-- C9. The import-once tracking is keyed by configuration label alone,
not by (registry, label): for two Configurations in different registries
sharing a label, after `find_hooks_impl` has run for one of them, the
call for the other is a silent no-op — its lookup modules are never
imported and none of its hooks are registered. -/
theorem find_hooks_impl_label_only (hooksOf : RegistryConfig → List Hook)
    (m : ManagerState) (c1 c2 : RegistryConfig) (hlab : c1.label = c2.label) :
    find_hooks_impl hooksOf (find_hooks_impl hooksOf m (some c1)).1 (some c2) =
      ((find_hooks_impl hooksOf m (some c1)).1, none) := by
  have key := find_hooks_impl_records_label hooksOf m c1
  rw [hlab] at key
  generalize hm1 : (find_hooks_impl hooksOf m (some c1)).1 = m1 at key ⊢
  simp only [find_hooks_impl]
  rw [if_pos key]

/-- C9 witness: a project config and a plugin config share the label
"dup"; after importing the project's hooks, `find_hooks_impl` for the
plugin config is a no-op even though its module defines a different
hook. -/
theorem find_hooks_impl_label_only_witness :
    find_hooks_impl hooksOfEx (find_hooks_impl hooksOfEx emptyMgr (some cfgDupProj)).1
        (some cfgDupPlug) =
      ((find_hooks_impl hooksOfEx emptyMgr (some cfgDupProj)).1, none) :=
  find_hooks_impl_label_only hooksOfEx emptyMgr cfgDupProj cfgDupPlug (by rfl)

/-- C5. `set_installed_configs` followed by `unset_installed_configs`
restores the registry's prior Configuration map exactly (the popped dict
is the pushed one, contents identical); nested set/set/unset/unset pairs
restore in LIFO order through the internal stack; and an
`override_settings(INSTALLED_PROJECTS=...)` context that entered
successfully restores the projects registry's pre-override Configuration
map (and the settings wrapper) on exit. -/
theorem set_unset_installed_configs_lifo
    (create : String → Option RegistryConfig) (st : RegistryState)
    (i1 i2 : List Entry) (sk1 sk2 : Bool) (stp stg : RegistryState)
    (w : Nat) (skopt : Option Bool) (skd : Bool) :
    (unset_installed_configs (set_installed_configs create st i1 sk1).1 =
      .ok { (set_installed_configs create st i1 sk1).1 with
            registry_configs := st.registry_configs,
            stored_configs := st.stored_configs,
            registry_ready := true, lock := true }) ∧
    (match unset_installed_configs
        (set_installed_configs create (set_installed_configs create st i1 sk1).1 i2 sk2).1 with
     | .ok stB1 =>
        stB1.registry_configs = (set_installed_configs create st i1 sk1).1.registry_configs ∧
        (match unset_installed_configs stB1 with
         | .ok stA1 => stA1.registry_configs = st.registry_configs
         | .error _ => False)
     | .error _ => False) ∧
    (match override_enter create skd
        { installed_projects := some i1, installed_plugins := none,
          skip_error_option := skopt }
        { projects := stp, plugins := stg, wrapped := w } with
     | (ost1, none) =>
        (match override_exit
            { installed_projects := some i1, installed_plugins := none,
              skip_error_option := skopt } w ost1 with
         | .ok ost2 => ost2.projects.registry_configs = stp.registry_configs ∧
            ost2.wrapped = w
         | .error _ => False)
     | (_, some _) => True) := by
  have h1 := set_installed_stored create st i1 sk1
  refine ⟨unset_of_stored _ _ _ h1, ?_, ?_⟩
  · have h2 := set_installed_stored create (set_installed_configs create st i1 sk1).1 i2 sk2
    rw [unset_of_stored _ _ _ h2]
    refine ⟨rfl, ?_⟩
    rw [unset_of_stored
      ({ (set_installed_configs create (set_installed_configs create st i1 sk1).1 i2 sk2).1 with
          registry_configs := (set_installed_configs create st i1 sk1).1.registry_configs,
          stored_configs := (set_installed_configs create st i1 sk1).1.stored_configs,
          registry_ready := true, lock := true })
      st.registry_configs st.stored_configs (by exact h1)]
  · rcases hset2 : set_installed_configs create stp i1 (skopt.getD skd) with ⟨prj1, err1⟩
    have hstored : prj1.stored_configs = stp.registry_configs :: stp.stored_configs := by
      have h3 := set_installed_stored create stp i1 (skopt.getD skd)
      rw [hset2] at h3
      exact h3
    cases err1 with
    | some e =>
      rcases hu : unset_installed_configs prj1 with e1 | prj2 <;>
        simp only [override_enter, override_enter_projects, override_enter_plugins,
          hset2, hu]
    | none =>
      simp only [override_enter, override_enter_projects, override_enter_plugins, hset2,
        override_exit, override_exit_projects, override_exit_plugins,
        unset_of_stored prj1 _ _ hstored]
      trivial

/-- C6. If applying an `override_settings` override fails while entering
the context — the `INSTALLED_PROJECTS` application raising, or (with no
projects key) the `INSTALLED_PLUGINS` application raising — the failing
registry's partial mutation is rolled back (its prior Configuration map
and stack are restored) before the exception propagates, the other
registry field is untouched, and the settings wrapper is unchanged (the
returned state differs from the input only in the rolled-back registry's
transient fields). -/
theorem override_enter_rollback
    (create : String → Option RegistryConfig) (skd : Bool)
    (opts : OverrideOptions) (st : OverrideState)
    (entries entriesP : List Entry) (e eP : Err) :
    (opts.installed_projects = some entries →
      (set_installed_configs create st.projects entries
        (opts.skip_error_option.getD skd)).2 = some e →
      override_enter create skd opts st =
        ({ st with projects := { (set_installed_configs create st.projects entries
            (opts.skip_error_option.getD skd)).1 with
              registry_configs := st.projects.registry_configs,
              stored_configs := st.projects.stored_configs,
              registry_ready := true, lock := true } }, some e)) ∧
    (opts.installed_projects = none →
      opts.installed_plugins = some entriesP →
      (set_installed_configs create st.plugins entriesP false).2 = some eP →
      override_enter create skd opts st =
        ({ st with plugins := { (set_installed_configs create st.plugins entriesP false).1 with
              registry_configs := st.plugins.registry_configs,
              stored_configs := st.plugins.stored_configs,
              registry_ready := true, lock := true } }, some eP)) := by
  constructor
  · intro hkey hfail
    rcases hset : set_installed_configs create st.projects entries
        (opts.skip_error_option.getD skd) with ⟨prj1, err⟩
    have herr : err = some e := by rw [hset] at hfail; exact hfail
    subst herr
    have hstored : prj1.stored_configs =
        st.projects.registry_configs :: st.projects.stored_configs := by
      have h3 := set_installed_stored create st.projects entries
        (opts.skip_error_option.getD skd)
      rw [hset] at h3
      exact h3
    simp only [override_enter, override_enter_projects, hkey, hset,
      unset_of_stored prj1 _ _ hstored]
  · intro hkeyP hkey hfail
    rcases hset : set_installed_configs create st.plugins entriesP false with ⟨plg1, err⟩
    have herr : err = some eP := by rw [hset] at hfail; exact hfail
    subst herr
    have hstored : plg1.stored_configs =
        st.plugins.registry_configs :: st.plugins.stored_configs := by
      have h3 := set_installed_stored create st.plugins entriesP false
      rw [hset] at h3
      exact h3
    simp only [override_enter, override_enter_projects, override_enter_plugins,
      hkeyP, hkey, hset, unset_of_stored plg1 _ _ hstored]

/-- C6 witness: failing overrides of `INSTALLED_PROJECTS` (and, in a
separate context, `INSTALLED_PLUGINS`) roll the respective registry back
and propagate the factory error, leaving the other fields untouched. -/
theorem override_enter_rollback_witness :
    (override_enter createFail false optsProjBad ovSt =
      ({ ovSt with projects := { (set_installed_configs createFail ovSt.projects
          [.ident "bad"] ((some false).getD false)).1 with
            registry_configs := ovSt.projects.registry_configs,
            stored_configs := ovSt.projects.stored_configs,
            registry_ready := true, lock := true } }, some (.factoryError "bad"))) ∧
    (override_enter createFail false optsPlugBad ovSt =
      ({ ovSt with plugins := { (set_installed_configs createFail ovSt.plugins
          [.ident "badplug"] false).1 with
            registry_configs := ovSt.plugins.registry_configs,
            stored_configs := ovSt.plugins.stored_configs,
            registry_ready := true, lock := true } }, some (.factoryError "badplug"))) :=
  ⟨(override_enter_rollback createFail false optsProjBad ovSt [.ident "bad"]
      [] (.factoryError "bad") (.factoryError "bad")).1 (by rfl) (by rfl),
   (override_enter_rollback createFail false optsPlugBad ovSt []
      [.ident "badplug"] (.factoryError "badplug") (.factoryError "badplug")).2
      (by rfl) (by rfl) (by rfl)⟩

/-- C7. `Hook.__init_subclass__`: a hook class whose effective abstract
flag is set is exempt from registration entirely (the manager registry is
returned unchanged, nothing raised); a non-abstract hook class lacking a
manager name is a hard configuration error; and a non-abstract hook class
whose defining module is contained in no registered Configuration
(searched across all registries) raises at class-definition time and
registers nothing. -/
theorem hook_init_subclass_checks
    (core : CoreState) (mgrs : List (String × ManagerState)) (cls : HookCls) :
    (cls.abstract = true → hook_init_subclass core mgrs cls = (mgrs, none)) ∧
    (cls.abstract = false → cls.manager = none →
      hook_init_subclass core mgrs cls = (mgrs, some (.hookNotLinked cls.clsName))) ∧
    (cls.abstract = false →
      core_get_containing_registry_config core cls.module = none →
      (hook_init_subclass core mgrs cls).1 = mgrs ∧
      (hook_init_subclass core mgrs cls).2.isSome = true) := by
  refine ⟨?_, ?_, ?_⟩
  · intro ha
    simp only [hook_init_subclass, ha, if_true]
  · intro ha hm
    simp only [hook_init_subclass, ha, hm, Bool.false_eq_true, if_false]
  · intro ha hnone
    simp only [hook_init_subclass, ha, Bool.false_eq_true, if_false]
    cases hm : cls.manager with
    | none => simp
    | some mgrName =>
      cases hl : lookupA mgrs mgrName with
      | none => simp [hl]
      | some mgr => simp [hl, hnone]

/-- C7 witness: the abstract class registers nothing; the class with no
manager raises the not-linked error; the class defined outside every
registered Configuration raises and leaves the manager registry
unchanged. -/
theorem hook_init_subclass_checks_witness :
    hook_init_subclass exCore exMgrs clsAbs = (exMgrs, none) ∧
    hook_init_subclass exCore exMgrs clsNoMgr =
      (exMgrs, some (.hookNotLinked clsNoMgr.clsName)) ∧
    ((hook_init_subclass exCore exMgrs clsOutside).1 = exMgrs ∧
      (hook_init_subclass exCore exMgrs clsOutside).2.isSome = true) :=
  ⟨(hook_init_subclass_checks exCore exMgrs clsAbs).1 (by rfl),
   (hook_init_subclass_checks exCore exMgrs clsNoMgr).2.1 (by rfl) (by rfl),
   (hook_init_subclass_checks exCore exMgrs clsOutside).2.2 (by rfl) (by rfl)⟩

/-- C8. For a project-scoped command: with allowed-projects list `[]` the
computed `restricted_projects` is empty and `execute` raises the
authorization error (naming the empty authorized set) for whichever
project resolves from the environment; in general `execute` raises the
authorization error naming the authorized set whenever the resolved
project's label is not in `restricted_projects`; and the class default
`["__all__"]` authorizes every installed project. -/
theorem project_command_restriction
    (prj : RegistryState) (env : Option String) (pc : RegistryConfig)
    (cfgs : List RegistryConfig) (restricted : List String)
    (hc : get_registry_configs prj = .ok cfgs)
    (hr : get_project_config_by_env prj env = .ok pc) :
    project_command_init prj [] = .ok [] ∧
    project_command_execute prj env [] = .error (.notAuthorized pc.label []) ∧
    (restricted.contains pc.label = false →
      project_command_execute prj env restricted =
        .error (.notAuthorized pc.label restricted)) ∧
    project_command_init prj ["__all__"] = .ok (cfgs.map (fun c => c.label)) := by
  refine ⟨?_, ?_, ?_, ?_⟩
  · simp [project_command_init, hc]
  · simp [project_command_execute, hr]
  · intro hnm
    have hnotmem : pc.label ∉ restricted := by simpa using hnm
    simp [project_command_execute, hr, hnotmem]
  · simp [project_command_init, hc]

/-- C8 witness: with `pkg` active and the command restricted to `[]`,
execution raises the authorization error; restricting to `["sub"]`
excludes `pkg` the same way; the default `["__all__"]` authorizes both
installed projects. -/
theorem project_command_restriction_witness :
    project_command_init exProjects [] = .ok [] ∧
    project_command_execute exProjects (some "pkg") [] =
      .error (.notAuthorized cfgPkg.label []) ∧
    (project_command_execute exProjects (some "pkg") ["sub"] =
      .error (.notAuthorized cfgPkg.label ["sub"])) ∧
    project_command_init exProjects ["__all__"] =
      .ok ([cfgPkg, cfgPkgSub].map (fun c => c.label)) :=
  have h := project_command_restriction exProjects (some "pkg") cfgPkg
    [cfgPkg, cfgPkgSub] ["sub"] (by rfl) (by rfl)
  ⟨h.1, h.2.1, h.2.2.1 (by rfl), h.2.2.2⟩

/-- C10 counterexample.  The claim says a failing `populate` on a
registry whose `registry_ready` flag was false leaves `managers_ready`
false as well; but `populate` never clears `managers_ready`.  `stPre` is
exactly the state `set_installed_configs` hands to `populate` when called
on the fully populated `exProjects` registry (third conjunct), so it is
reachable with `managers_ready = true`; the duplicate-label failure then
leaves `managers_ready = true`, not false. -/
theorem populate_error_managers_ready_cex :
    stPre.registry_ready = false ∧
    stPre.managers_ready = true ∧
    set_installed_configs createFail exProjects [.config cfgDupA, .config cfgDupB] false =
      populate createFail stPre [.config cfgDupA, .config cfgDupB] false true ∧
    (populate createFail stPre [.config cfgDupA, .config cfgDupB] false true).2.isSome
      = true ∧
    (populate createFail stPre
        [.config cfgDupA, .config cfgDupB] false true).1.managers_ready = true :=
  ⟨rfl, rfl, rfl, by rfl, by rfl⟩

/-- C10 (amended). If `populate` raises (a factory error with skip_error
false, or a duplicate-label or duplicate-name error) on a registry whose
`registry_ready` flag was false before the call, then `registry_ready`
remains false and `managers_ready` is left unchanged (in particular it
remains false whenever it was false before), so every subsequent registry
query — `get_registry_config`, `get_registry_configs`, `is_installed`,
`get_containing_registry_config` — raises the not-ready error, even
though Configurations added before the failing one may remain in the
internal map. -/
theorem populate_error_keeps_not_ready
    (create : String → Option RegistryConfig) (st : RegistryState)
    (installed : List Entry) (skip lock : Bool) (lbl nm oname : String)
    (hready : st.registry_ready = false)
    (herr : (populate create st installed skip lock).2.isSome = true) :
    (populate create st installed skip lock).1.registry_ready = false ∧
    (populate create st installed skip lock).1.managers_ready = st.managers_ready ∧
    get_registry_config (populate create st installed skip lock).1 lbl =
      .error (.notReady st.name) ∧
    get_registry_configs (populate create st installed skip lock).1 =
      .error (.notReady st.name) ∧
    is_installed (populate create st installed skip lock).1 nm =
      .error (.notReady st.name) ∧
    get_containing_registry_config (populate create st installed skip lock).1 oname =
      .error (.notReady st.name) := by
  obtain ⟨h1, h2, _, h4⟩ := populate_error_preserves create st installed skip lock herr
  have hr : (populate create st installed skip lock).1.registry_ready = false :=
    h1.trans hready
  refine ⟨hr, h2, ?_, ?_, ?_, ?_⟩ <;>
    simp [get_registry_config, get_registry_configs, is_installed,
      get_containing_registry_config, hr, h4]

/-- C10 witness (for the amended statement): the duplicate-label failure
on `stPre` (registry_ready false before the call) leaves the registry
not ready and every query raising the not-ready error. -/
theorem populate_error_keeps_not_ready_witness :
    (populate createFail stPre
        [.config cfgDupA, .config cfgDupB] false true).1.registry_ready = false ∧
    (populate createFail stPre
        [.config cfgDupA, .config cfgDupB] false true).1.managers_ready =
      stPre.managers_ready ∧
    get_registry_config (populate createFail stPre
        [.config cfgDupA, .config cfgDupB] false true).1 "dup" =
      .error (.notReady stPre.name) ∧
    get_registry_configs (populate createFail stPre
        [.config cfgDupA, .config cfgDupB] false true).1 =
      .error (.notReady stPre.name) ∧
    is_installed (populate createFail stPre
        [.config cfgDupA, .config cfgDupB] false true).1 "alpha.dup" =
      .error (.notReady stPre.name) ∧
    get_containing_registry_config (populate createFail stPre
        [.config cfgDupA, .config cfgDupB] false true).1 "alpha.dup.mod" =
      .error (.notReady stPre.name) :=
  populate_error_keeps_not_ready createFail stPre [.config cfgDupA, .config cfgDupB]
    false true "dup" "alpha.dup" "alpha.dup.mod" (by rfl) (by rfl)

end Socon
